import Mathlib

/-!
Verification of the drowsiness-detection controller
(`src/drowsiness_detection.py`) against its specification.

The program is a single-threaded PyQt controller: a timer fires
`update_frame` every 30 ms; each tick reads a webcam frame, converts the
device-native BGR frame to RGB, applies a linear brightness transform
(`cv2.convertScaleAbs` with alpha=1.0, beta=0), resizes it, classifies it,
and drives a status label plus a looping pygame alarm via the sticky
boolean `drowsy_detected`.  The shallow embedding below models the session
state as a record and each callback as a pure state transformer; the
external collaborators (the `cv2.resize` interpolation and the Hugging
Face classifier) are passed in as function parameters, since the program
uses them as black boxes.  Each tick additionally reports which external
calls it performed (`TickEvents`), so invocation-counting properties can
be stated.
-/

/-- A raw video frame: a row-major list of pixels, each a triple of 8-bit
channel values in the device's storage order (BGR for the webcam). -/
structure Frame where
  width : Nat
  height : Nat
  data : List (Nat × Nat × Nat)
deriving DecidableEq, Repr

/-- `cv2.cvtColor(frame, cv2.COLOR_BGR2RGB)`: reverse the channel order of
every pixel. -/
def cvtColorBGR2RGB (f : Frame) : Frame :=
  { f with data := f.data.map (fun p => (p.2.2, p.2.1, p.1)) }

/-- One channel of `cv2.convertScaleAbs`: `saturate_cast<uchar>(|alpha*x + beta|)`
(rounding mode is irrelevant at alpha=1, beta=0, the only call site). -/
def scaleAbsByte (alpha beta : ℚ) (x : Nat) : Nat :=
  min 255 (round |alpha * (x : ℚ) + beta|).toNat

/-- `cv2.convertScaleAbs(frame, alpha, beta)` applied channel-wise. -/
def convertScaleAbs (f : Frame) (alpha beta : ℚ) : Frame :=
  { f with data := f.data.map (fun p =>
      (scaleAbsByte alpha beta p.1, scaleAbsByte alpha beta p.2.1,
       scaleAbsByte alpha beta p.2.2)) }

/-- The session state of `DrowsinessDetector`.  `timerActive`/`timerInterval`
model the single `QTimer`; `musicPlaying` models the pygame mixer's playback
state; `videoFrame` holds the raw byte buffer last handed to
`QImage(..., Format_RGB888)` (the widget interprets those bytes as RGB);
`capReleased` records whether `self.cap.release()` has run. -/
structure DDState where
  detection_running : Bool
  drowsy_detected : Bool
  timerActive : Bool
  timerInterval : Nat
  musicPlaying : Bool
  statusText : String
  statusStyle : String
  videoFrame : Option Frame
  capReleased : Bool
deriving DecidableEq, Repr

/-- The state right after `__init__`/`initUI`: no detection, no alarm,
timer created but not started (Qt default interval 0), neutral prompt. -/
def initialState : DDState :=
  { detection_running := false
    drowsy_detected := false
    timerActive := false
    timerInterval := 0
    musicPlaying := false
    statusText := "Status: Click \x27Start Detection\x27"
    statusStyle := ""
    videoFrame := none
    capReleased := false }

/-- Which external calls one callback performed: a webcam read
(`self.cap.read()`), a classifier invocation (`pipe(pil_image)`), a playback
start (`pygame.mixer.music.play(-1)`), a playback stop
(`pygame.mixer.music.stop()`). -/
structure TickEvents where
  readInvoked : Bool
  classifierInvoked : Bool
  playInvoked : Bool
  stopInvoked : Bool
deriving DecidableEq, Repr

/-- No external calls. -/
def noTickEvents : TickEvents :=
  { readInvoked := false, classifierInvoked := false
    playInvoked := false, stopInvoked := false }

/-- `start_detection`: guard on `detection_running`, otherwise set it and
`self.timer.start(30)`. -/
def start_detection (s : DDState) : DDState :=
  if s.detection_running then s
  else { s with detection_running := true, timerActive := true, timerInterval := 30 }

/-- `stop_detection` with its event record: unconditionally clears
`detection_running`, stops the timer, resets the status label, clears
`drowsy_detected` and calls `pygame.mixer.music.stop()`. -/
def stop_detectionE (s : DDState) : DDState × TickEvents :=
  ({ s with detection_running := false
            timerActive := false
            statusText := "Status: Stopped"
            statusStyle := "color: black;"
            drowsy_detected := false
            musicPlaying := false },
   { noTickEvents with stopInvoked := true })

/-- `stop_detection`, state part. -/
def stop_detection (s : DDState) : DDState := (stop_detectionE s).1

/-- `closeEvent`: `self.cap.release(); pygame.mixer.music.stop();
event.accept()`.  It touches nothing else: not the timer, not
`drowsy_detected`, not the status label. -/
def closeEventE (s : DDState) : DDState × TickEvents :=
  ({ s with capReleased := true, musicPlaying := false },
   { noTickEvents with stopInvoked := true })

/-- `closeEvent`, state part. -/
def closeEvent (s : DDState) : DDState := (closeEventE s).1

/-- Python's `str.lower()` as used on the classifier's label (ASCII labels):
lowercase the string character by character. -/
def lowerStr (t : String) : String := ⟨t.data.map Char.toLower⟩

/-- `update_frame`, one timer tick.  `cap` is the outcome of
`self.cap.read()` (`none` models `ret == False`); `resize` stands for
`cv2.resize(_, (224, 224))` and `classify` for the top label of
`pipe(pil_image)`, both external black boxes. -/
def update_frame (resize : Frame → Frame) (classify : Frame → String)
    (s : DDState) (cap : Option Frame) : DDState × TickEvents :=
  if s.detection_running = false then (s, noTickEvents)
  else
    match cap with
    | none => (s, { noTickEvents with readInvoked := true })
    | some frame =>
      let rgb_frame := cvtColorBGR2RGB frame
      let rgb_frame2 := convertScaleAbs rgb_frame 1 0
      let resized_frame := resize rgb_frame2
      let label := lowerStr (classify resized_frame)
      if label = "drowsy" then
        if s.drowsy_detected = false then
          ({ s with statusText := "Status: Drowsy! ⚠️"
                    statusStyle := "color: red; font-weight: bold;"
                    drowsy_detected := true
                    musicPlaying := true
                    videoFrame := some frame },
           { readInvoked := true, classifierInvoked := true
             playInvoked := true, stopInvoked := false })
        else
          ({ s with statusText := "Status: Drowsy! ⚠️"
                    statusStyle := "color: red; font-weight: bold;"
                    videoFrame := some frame },
           { readInvoked := true, classifierInvoked := true
             playInvoked := false, stopInvoked := false })
      else
        ({ s with statusText := "Status: Awake 😊"
                  statusStyle := "color: green; font-weight: bold;"
                  drowsy_detected := false
                  musicPlaying := false
                  videoFrame := some frame },
         { readInvoked := true, classifierInvoked := true
           playInvoked := false, stopInvoked := true })

/-- A one-pixel test frame with distinct channel values. -/
def testFrame : Frame := { width := 1, height := 1, data := [(0, 1, 2)] }

/-- Run one `update_frame` tick per label (frame read succeeding with `fr`
each time, the classifier returning that tick's label), returning the final
state and the per-tick event records in order. -/
def tickSeq (resize : Frame → Frame) (fr : Frame) (s : DDState) :
    List String → DDState × List TickEvents
  | [] => (s, [])
  | l :: ls =>
    let r := update_frame resize (fun _ => l) s (some fr)
    let rest := tickSeq resize fr r.1 ls
    (rest.1, r.2 :: rest.2)

/-- The session state reached from `initialState` by `start_detection`
followed by one tick whose classifier answer is "Drowsy" on `testFrame`:
the session is Detecting and the alarm is active. -/
def alarmState : DDState :=
  { detection_running := true
    drowsy_detected := true
    timerActive := true
    timerInterval := 30
    musicPlaying := true
    statusText := "Status: Drowsy! ⚠️"
    statusStyle := "color: red; font-weight: bold;"
    videoFrame := some testFrame
    capReleased := false }

/-! ## Branch lemmas for `update_frame` -/

/-- A tick in Detecting whose label lowercases to "drowsy" while the sticky
flag is clear: status goes red, the flag is set and looped playback starts. -/
theorem update_frame_drowsy_new (resize : Frame → Frame) (classify : Frame → String)
    (s : DDState) (fr : Frame) (h1 : s.detection_running = true)
    (h2 : s.drowsy_detected = false)
    (hl : lowerStr (classify (resize (convertScaleAbs (cvtColorBGR2RGB fr) 1 0))) = "drowsy") :
    update_frame resize classify s (some fr) =
      ({ s with statusText := "Status: Drowsy! ⚠️"
                statusStyle := "color: red; font-weight: bold;"
                drowsy_detected := true
                musicPlaying := true
                videoFrame := some fr },
       { readInvoked := true, classifierInvoked := true
         playInvoked := true, stopInvoked := false }) := by
  simp [update_frame, h1, h2, hl]

/-- A tick in Detecting whose label lowercases to "drowsy" while the alarm is
already active: status goes red, playback is left running untouched. -/
theorem update_frame_drowsy_again (resize : Frame → Frame) (classify : Frame → String)
    (s : DDState) (fr : Frame) (h1 : s.detection_running = true)
    (h2 : s.drowsy_detected = true)
    (hl : lowerStr (classify (resize (convertScaleAbs (cvtColorBGR2RGB fr) 1 0))) = "drowsy") :
    update_frame resize classify s (some fr) =
      ({ s with statusText := "Status: Drowsy! ⚠️"
                statusStyle := "color: red; font-weight: bold;"
                videoFrame := some fr },
       { readInvoked := true, classifierInvoked := true
         playInvoked := false, stopInvoked := false }) := by
  simp [update_frame, h1, h2, hl]

/-- A tick in Detecting whose label does not lowercase to "drowsy": status
goes green, the flag is cleared and playback stop is invoked unconditionally. -/
theorem update_frame_awake (resize : Frame → Frame) (classify : Frame → String)
    (s : DDState) (fr : Frame) (h1 : s.detection_running = true)
    (hl : ¬ lowerStr (classify (resize (convertScaleAbs (cvtColorBGR2RGB fr) 1 0))) = "drowsy") :
    update_frame resize classify s (some fr) =
      ({ s with statusText := "Status: Awake 😊"
                statusStyle := "color: green; font-weight: bold;"
                drowsy_detected := false
                musicPlaying := false
                videoFrame := some fr },
       { readInvoked := true, classifierInvoked := true
         playInvoked := false, stopInvoked := true }) := by
  simp [update_frame, h1, hl]

/-! ## Claim theorems -/

/-- Claim C10: invoking `update_frame` while `detection_running` is false
returns immediately: no frame read, no classifier call, no playback call, and
the session state (status text, playback, displayed frame included) is
unchanged. -/
theorem tick_noop_when_not_running (resize : Frame → Frame) (classify : Frame → String)
    (s : DDState) (cap : Option Frame) (h : s.detection_running = false) :
    update_frame resize classify s cap = (s, noTickEvents) := by
  simp [update_frame, h]

/-- Witness for C10 at the initial state with a stray tick and no frame. -/
theorem tick_noop_when_not_running_witness :
    update_frame (fun f => f) (fun _ => "drowsy") initialState none
      = (initialState, noTickEvents) :=
  tick_noop_when_not_running (fun f => f) (fun _ => "drowsy") initialState none (by decide)

/-- Claim C5: a tick in Detecting whose capture read fails terminates at once,
leaving the whole session state (alarm flag, status text, playback, displayed
frame) unchanged; the only external call made is the failed read. -/
theorem dropped_frame_resilience (resize : Frame → Frame) (classify : Frame → String)
    (s : DDState) (h : s.detection_running = true) :
    update_frame resize classify s none = (s, { noTickEvents with readInvoked := true }) := by
  simp [update_frame, h]

/-- Witness for C5 in a freshly started session. -/
theorem dropped_frame_resilience_witness :
    update_frame (fun f => f) (fun _ => "drowsy") (start_detection initialState) none
      = (start_detection initialState, { noTickEvents with readInvoked := true }) :=
  dropped_frame_resilience (fun f => f) (fun _ => "drowsy")
    (start_detection initialState) (by decide)

/-- Claim C6: for every session state, window close leaves playback stopped
and the capture device released. -/
theorem shutdown_guarantee (s : DDState) :
    (closeEvent s).musicPlaying = false ∧ (closeEvent s).capReleased = true := by
  simp [closeEvent, closeEventE]

/-- Claim C9: the stop command is total and idempotent: from any state it
leaves `detection_running = false`, the timer stopped, `drowsy_detected =
false`, playback stopped and the neutral stopped status text, and a second
stop produces exactly the state of the first. -/
theorem idempotent_stop (s : DDState) :
    (stop_detection s).detection_running = false ∧
    (stop_detection s).timerActive = false ∧
    (stop_detection s).drowsy_detected = false ∧
    (stop_detection s).musicPlaying = false ∧
    (stop_detection s).statusText = "Status: Stopped" ∧
    stop_detection (stop_detection s) = stop_detection s := by
  simp [stop_detection, stop_detectionE]

/-- Claim C8: starting from a non-running state activates the single timer at
the fixed 30 ms period, a second start changes no session state, and invoking
start in any already-running state is a no-op. -/
theorem idempotent_start (s t : DDState) (h : s.detection_running = false)
    (ht : t.detection_running = true) :
    start_detection t = t ∧
    (start_detection s).detection_running = true ∧
    (start_detection s).timerActive = true ∧
    (start_detection s).timerInterval = 30 ∧
    start_detection (start_detection s) = start_detection s := by
  refine ⟨by simp [start_detection, ht], ?_, ?_, ?_, ?_⟩ <;>
    simp [start_detection, h]

/-- Witness for C8: starting twice from the initial state. -/
theorem idempotent_start_witness :
    start_detection (start_detection initialState) = start_detection initialState ∧
    (start_detection initialState).timerActive = true ∧
    (start_detection initialState).timerInterval = 30 :=
  ⟨(idempotent_start initialState (start_detection initialState)
      (by decide) (by decide)).1,
   (idempotent_start initialState (start_detection initialState)
      (by decide) (by decide)).2.2.1,
   (idempotent_start initialState (start_detection initialState)
      (by decide) (by decide)).2.2.2.1⟩

/-- Claim C3: starting in Detecting with the alarm flag clear, the label
sequence [drowsy, drowsy, awake, drowsy] followed by a manual stop invokes
playback start exactly at ticks 1 and 4 and playback stop exactly at tick 3
and at the manual stop; tick 2 does not restart the already-looping alarm. -/
theorem alarm_sticky_sequence (resize : Frame → Frame) (fr : Frame) (s : DDState)
    (h1 : s.detection_running = true) (h2 : s.drowsy_detected = false) :
    ((tickSeq resize fr s ["drowsy", "drowsy", "awake", "drowsy"]).2.map
        TickEvents.playInvoked = [true, false, false, true]) ∧
    ((tickSeq resize fr s ["drowsy", "drowsy", "awake", "drowsy"]).2.map
        TickEvents.stopInvoked = [false, false, true, false]) ∧
    (stop_detectionE (tickSeq resize fr s ["drowsy", "drowsy", "awake", "drowsy"]).1).2.playInvoked
      = false ∧
    (stop_detectionE (tickSeq resize fr s ["drowsy", "drowsy", "awake", "drowsy"]).1).2.stopInvoked
      = true := by
  simp [tickSeq, update_frame, h1, h2, stop_detectionE, noTickEvents,
        show lowerStr "drowsy" = "drowsy" from by decide,
        show lowerStr "awake" = "awake" from by decide]

/-- Witness for C3 in a freshly started session on the test frame. -/
theorem alarm_sticky_sequence_witness :
    ((tickSeq (fun f => f) testFrame (start_detection initialState)
        ["drowsy", "drowsy", "awake", "drowsy"]).2.map
        TickEvents.playInvoked = [true, false, false, true]) ∧
    ((tickSeq (fun f => f) testFrame (start_detection initialState)
        ["drowsy", "drowsy", "awake", "drowsy"]).2.map
        TickEvents.stopInvoked = [false, false, true, false]) ∧
    (stop_detectionE (tickSeq (fun f => f) testFrame (start_detection initialState)
        ["drowsy", "drowsy", "awake", "drowsy"]).1).2.playInvoked = false ∧
    (stop_detectionE (tickSeq (fun f => f) testFrame (start_detection initialState)
        ["drowsy", "drowsy", "awake", "drowsy"]).1).2.stopInvoked = true :=
  alarm_sticky_sequence (fun f => f) testFrame (start_detection initialState)
    (by decide) (by decide)

/-- Claim C7: the per-tick step lowercases the label and compares it to the
literal "drowsy"; the labels "Drowsy", "DROWSY" and "drowsy" all select the
drowsy branch, and "Awake", "not_drowsy" and the empty string all select the
awake branch. -/
theorem label_case_insensitive (resize : Frame → Frame) (s : DDState) (fr : Frame)
    (l : String) (h1 : s.detection_running = true) :
    ((update_frame resize (fun _ => l) s (some fr)).1.drowsy_detected = true
      ↔ lowerStr l = "drowsy") ∧
    ((update_frame resize (fun _ => l) s (some fr)).1.statusText = "Status: Drowsy! ⚠️"
      ↔ lowerStr l = "drowsy") ∧
    (lowerStr "Drowsy" = "drowsy" ∧ lowerStr "DROWSY" = "drowsy" ∧
     lowerStr "drowsy" = "drowsy") ∧
    (lowerStr "Awake" ≠ "drowsy" ∧ lowerStr "not_drowsy" ≠ "drowsy" ∧
     lowerStr "" ≠ "drowsy") := by
  refine ⟨?_, ?_, by decide, by decide⟩ <;>
  · by_cases hl : lowerStr l = "drowsy" <;> cases hd : s.drowsy_detected <;>
      simp [update_frame, h1, hl, hd]

/-- Witness for C7 on the label "Drowsy" in a freshly started session. -/
theorem label_case_insensitive_witness :
    ((update_frame (fun f => f) (fun _ => "Drowsy") (start_detection initialState)
        (some testFrame)).1.drowsy_detected = true ↔ lowerStr "Drowsy" = "drowsy") ∧
    ((update_frame (fun f => f) (fun _ => "Drowsy") (start_detection initialState)
        (some testFrame)).1.statusText = "Status: Drowsy! ⚠️"
      ↔ lowerStr "Drowsy" = "drowsy") ∧
    (lowerStr "Drowsy" = "drowsy" ∧ lowerStr "DROWSY" = "drowsy" ∧
     lowerStr "drowsy" = "drowsy") ∧
    (lowerStr "Awake" ≠ "drowsy" ∧ lowerStr "not_drowsy" ≠ "drowsy" ∧
     lowerStr "" ≠ "drowsy") :=
  label_case_insensitive (fun f => f) (start_detection initialState) testFrame
    "Drowsy" (by decide)

/-- Counterexample to claim C1 as stated: in the reachable Detecting state
with the alarm sounding, the window-close operation stops playback but leaves
`drowsy_detected` set, so after that operation the alarm flag is true while
the audio is not playing. -/
theorem close_breaks_alarm_invariant :
    alarmState = (update_frame (fun f => f) (fun _ => "Drowsy")
        (start_detection initialState) (some testFrame)).1 ∧
    alarmState.musicPlaying = alarmState.drowsy_detected ∧
    ¬ (closeEvent alarmState).musicPlaying = (closeEvent alarmState).drowsy_detected := by
  refine ⟨by decide, by decide, by decide⟩

/-- Claim C1 amended: the playing-iff-flag invariant is preserved by every
per-tick step (paths that start playback set the flag first, paths that clear
the flag stop playback), by the stop command and by the start command; the
window close stops playback but leaves the flag unchanged, so it alone can
leave the flag true with playback stopped. -/
theorem alarm_invariant_amended (resize : Frame → Frame) (classify : Frame → String)
    (cap : Option Frame) (s : DDState) (h : s.musicPlaying = s.drowsy_detected) :
    ((update_frame resize classify s cap).1.musicPlaying
      = (update_frame resize classify s cap).1.drowsy_detected) ∧
    ((stop_detection s).musicPlaying = (stop_detection s).drowsy_detected) ∧
    ((start_detection s).musicPlaying = (start_detection s).drowsy_detected) ∧
    (closeEvent s).musicPlaying = false ∧
    (closeEvent s).drowsy_detected = s.drowsy_detected := by
  refine ⟨?_, by simp [stop_detection, stop_detectionE], ?_,
    by simp [closeEvent, closeEventE], by simp [closeEvent, closeEventE]⟩
  · rcases cap with _ | fr
    · by_cases hr : s.detection_running = false <;> simp [update_frame, hr, h]
    · by_cases hr : s.detection_running = false
      · simp [update_frame, hr, h]
      · by_cases hl : lowerStr (classify (resize (convertScaleAbs (cvtColorBGR2RGB fr) 1 0)))
            = "drowsy" <;> cases hd : s.drowsy_detected <;>
          simp [update_frame, hr, hl, hd, h]
  · by_cases hr : s.detection_running <;> simp [start_detection, hr, h]

/-- Witness for the amended C1 at a drowsy tick in a fresh session. -/
theorem alarm_invariant_amended_witness :
    (update_frame (fun f => f) (fun _ => "Drowsy") (start_detection initialState)
        (some testFrame)).1.musicPlaying
      = (update_frame (fun f => f) (fun _ => "Drowsy") (start_detection initialState)
        (some testFrame)).1.drowsy_detected :=
  (alarm_invariant_amended (fun f => f) (fun _ => "Drowsy") (some testFrame)
    (start_detection initialState) (by decide)).1

/-- Counterexample to claim C2 as stated: window close in the reachable
Detecting-with-alarm state does not stop the timer, does not clear
`drowsy_detected`, and does not reset the status text. -/
theorem close_does_not_reset_session :
    alarmState.detection_running = true ∧
    (closeEvent alarmState).timerActive = true ∧
    (closeEvent alarmState).drowsy_detected = true ∧
    (closeEvent alarmState).statusText ≠ "Status: Stopped" := by
  refine ⟨by decide, by decide, by decide, by decide⟩

/-- Claim C2 amended: from every Detecting state, window close synchronously
stops alarm playback and releases the capture device, but unlike the stop
command it leaves the timer, the `drowsy_detected` flag, the
`detection_running` flag and the status text unchanged. -/
theorem close_partial_cleanup (s : DDState) (h : s.detection_running = true) :
    (closeEvent s).musicPlaying = false ∧
    (closeEvent s).capReleased = true ∧
    (closeEvent s).timerActive = s.timerActive ∧
    (closeEvent s).drowsy_detected = s.drowsy_detected ∧
    (closeEvent s).statusText = s.statusText ∧
    (closeEvent s).detection_running = s.detection_running := by
  simp [closeEvent, closeEventE]

/-- Witness for the amended C2 at the Detecting-with-alarm state. -/
theorem close_partial_cleanup_witness :
    (closeEvent alarmState).musicPlaying = false ∧
    (closeEvent alarmState).capReleased = true ∧
    (closeEvent alarmState).timerActive = alarmState.timerActive ∧
    (closeEvent alarmState).drowsy_detected = alarmState.drowsy_detected ∧
    (closeEvent alarmState).statusText = alarmState.statusText ∧
    (closeEvent alarmState).detection_running = alarmState.detection_running :=
  close_partial_cleanup alarmState (by decide)

/-- Counterexample to claim C4 as stated: on a successful tick the buffer
handed to the preview is the raw device-native frame, not its RGB-converted
form, and on `testFrame` the two differ. -/
theorem preview_not_color_converted :
    (update_frame (fun f => f) (fun _ => "Awake") (start_detection initialState)
        (some testFrame)).1.videoFrame ≠ some (cvtColorBGR2RGB testFrame) ∧
    (update_frame (fun f => f) (fun _ => "Awake") (start_detection initialState)
        (some testFrame)).1.videoFrame = some testFrame := by
  refine ⟨by decide, by decide⟩

/-- Claim C4 amended: in every tick whose capture read succeeds, the frame
rendered into the preview display is the original (not resized) frame with
no color-order conversion applied: the raw device-native bytes are handed to
the RGB-interpreting display as-is. -/
theorem preview_renders_raw_frame (resize : Frame → Frame) (classify : Frame → String)
    (s : DDState) (fr : Frame) (h : s.detection_running = true) :
    (update_frame resize classify s (some fr)).1.videoFrame = some fr := by
  by_cases hl : lowerStr (classify (resize (convertScaleAbs (cvtColorBGR2RGB fr) 1 0)))
      = "drowsy" <;> cases hd : s.drowsy_detected <;> simp [update_frame, h, hl, hd]

/-- Witness for the amended C4 at a drowsy tick in a fresh session. -/
theorem preview_renders_raw_frame_witness :
    (update_frame (fun f => f) (fun _ => "Drowsy") (start_detection initialState)
        (some testFrame)).1.videoFrame = some testFrame :=
  preview_renders_raw_frame (fun f => f) (fun _ => "Drowsy")
    (start_detection initialState) testFrame (by decide)
